import Mathlib

/-!
Verification of the GitLab-Runner-on-EKS provisioning tool (main.go).

The program is a linear six-step pipeline: resolve the caller identity,
create an IAM role, create an IAM policy, attach the policy to the role,
create and annotate a Kubernetes service account via kubectl subprocesses,
and deploy a Helm chart via helm subprocesses.

The embedding models every external collaborator (the AWS session, the STS
and IAM clients, and the subprocess runner) as an environment `Env` of
call results, and records every outgoing call in an event trace.  Each Go
function becomes a Lean function from the environment (and the program's
global variables) to its Go return values paired with the trace of calls
it makes.  Go's two-value returns `(T, error)` are modelled as
`T × Option String` where `none` is a nil error.
-/

namespace GitLabRunnerDeploy

/-! ### Constants from main.go (the `const` block) -/

def GitLabRunnerRoleName : String := "GitLabRunnerRole"

def GitLabRunnerRolePolicyName : String := "GitLabRunnerRolePolicy"

/-- The permissions-policy document (Go raw string literal, tabs and
newlines included; brace characters written with hex escapes). -/
def GitLabRunnerRolePolicyDocument : String :=
  "\x7b\n\t\t\"Version\": \"2012-10-17\",\n\t\t\"Statement\": [\n\t\t\t\x7b\n\t\t\t\t\"Effect\": \"Allow\",\n\t\t\t\t\"Action\": [\n\t\t\t\t\t\"ec2:*\",\n\t\t\t\t\t\"elasticloadbalancing:*\",\n\t\t\t\t\t\"autoscaling:*\",\n\t\t\t\t\t\"cloudwatch:*\",\n\t\t\t\t\t\"s3:*\",\n\t\t\t\t\t\"sns:*\",\n\t\t\t\t\t\"sqs:*\",\n\t\t\t\t\t\"rds:*\",\n\t\t\t\t\t\"route53:*\",\n\t\t\t\t\t\"iam:PassRole\",\n\t\t\t\t\t\"iam:GetRole\",\n\t\t\t\t\t\"iam:ListInstanceProfiles\",\n\t\t\t\t\t\"iam:ListRoles\"\n\t\t\t\t],\n\t\t\t\t\"Resource\": \"*\"\n\t\t\t\x7d\n\t\t]\n\t\x7d"

/-- The trust-policy document (Go raw string literal). -/
def GitLabRunnerRoleAssumeRolePolicyDocument : String :=
  "\x7b\n\t\t\"Version\": \"2012-10-17\",\n\t\t\"Statement\": [\n\t\t\t\x7b\n\t\t\t\t\"Effect\": \"Allow\",\n\t\t\t\t\"Principal\": \x7b\n\t\t\t\t\t\"Service\": \"eks.amazonaws.com\"\n\t\t\t\t\x7d,\n\t\t\t\t\"Action\": \"sts:AssumeRole\"\n\t\t\t\x7d\n\t\t]\n\t\x7d"

def GitLabRunnerServiceAccountName : String := "gitlab-runner"

/-- The fixed annotation key (named GitLabRunnerServiceAccountAnnotation in
the Go source). -/
def GitLabRunnerServiceAccountAnnotationKey : String := "eks.amazonaws.com/role-arn"

def GitLabRunnerServiceAccountAnnotationValue : String := "arn:aws:iam::%s:role/%s"

def GitLabRunnerHelmChartName : String := "gitlab-runner"

def GitLabRunnerHelmChartRepo : String := "https://charts.gitlab.io"

def GitLabRunnerHelmChartVersion : String := "0.1.0"

def GitLabRunnerHelmChartValuesFile : String := "values.yaml"

def GitLabRunnerHelmChartReleaseName : String := "gitlab-runner"

def GitLabRunnerHelmChartNamespace : String := "gitlab-runner"

/-! ### Go library primitives used by the program -/

/-- Substitution of each %s verb in a Go format string by the next
argument, as fmt.Sprintf does for the %s-only formats used here. -/
def sprintfAux : List Char → List String → List Char
  | [], _ => []
  | '%' :: 's' :: rest, arg :: args => arg.data ++ sprintfAux rest args
  | c :: rest, args => c :: sprintfAux rest args

/-- fmt.Sprintf restricted to %s verbs. -/
def goSprintf (fmt : String) (args : List String) : String :=
  String.mk (sprintfAux fmt.data args)

/-- pkg/errors.Wrap: the wrapped error's message is the annotation text,
a colon and a space, then the cause's message. -/
def errorsWrap (cause msg : String) : String := msg ++ ": " ++ cause

/-! ### The external world: call inputs, events, environment -/

/-- Input of the iam.CreateRole API call. -/
structure CreateRoleInput where
  assumeRolePolicyDocument : String
  roleName : String
deriving DecidableEq, Repr

/-- Input of the iam.CreatePolicy API call. -/
structure CreatePolicyInput where
  description : String
  policyDocument : String
  policyName : String
deriving DecidableEq, Repr

/-- Input of the iam.AttachRolePolicy API call. -/
structure AttachRolePolicyInput where
  policyArn : String
  roleName : String
deriving DecidableEq, Repr

/-- One outgoing call made by the program: a cloud API request or a
subprocess invocation (command name and argument vector). -/
inductive Event where
  | stsGetCallerIdentity : Event
  | iamCreateRole : CreateRoleInput → Event
  | iamCreatePolicy : CreatePolicyInput → Event
  | iamAttachRolePolicy : AttachRolePolicyInput → Event
  | subprocess : String → List String → Event
deriving DecidableEq, Repr

/-- Behaviour of all external collaborators.  Each cloud call's outcome is
given as `Except message value`; a subprocess run outcome is `none` for
exit status 0 and `some message` for a non-zero exit (the message is the
error text Go's cmd.Run would produce). -/
structure Env where
  sessionOk : Bool
  getCallerIdentityResult : Except String String
  createRoleResult : Except String String
  createPolicyResult : Except String String
  attachRolePolicyResult : Except String Unit
  run : String → List String → Option String

/-- The program's package-level mutable variables (Go `var` block); Go's
zero value for string is the empty string. -/
structure Globals where
  GitLabRunnerRoleARN : String
  GitLabRunnerRolePolicyARN : String
  GitLabRunnerServiceAccountARN : String
deriving DecidableEq, Repr

def Globals.init : Globals := ⟨"", "", ""⟩

/-! ### The six pipeline functions -/

/-- getAccountID: one STS GetCallerIdentity call; returns the account ID. -/
def getAccountID (env : Env) : String × Option String × List Event :=
  match env.getCallerIdentityResult with
  | .error e => ("", some (errorsWrap e "failed to get caller identity"), [.stsGetCallerIdentity])
  | .ok acct => (acct, none, [.stsGetCallerIdentity])

/-- createRole: one IAM CreateRole call with the fixed trust policy and
role name; returns the created role's ARN.  The accountID parameter is
received but not used by the Go function body. -/
def createRole (env : Env) (accountID : String) : String × Option String × List Event :=
  let input : CreateRoleInput :=
    ⟨GitLabRunnerRoleAssumeRolePolicyDocument, GitLabRunnerRoleName⟩
  match env.createRoleResult with
  | .error e => ("", some (errorsWrap e "failed to create role"), [.iamCreateRole input])
  | .ok arn => (arn, none, [.iamCreateRole input])

/-- createRolePolicy: one IAM CreatePolicy call with the fixed description,
document and policy name; returns the created policy's ARN. -/
def createRolePolicy (env : Env) (accountID : String) : String × Option String × List Event :=
  let input : CreatePolicyInput :=
    ⟨"GitLab Runner role policy", GitLabRunnerRolePolicyDocument, GitLabRunnerRolePolicyName⟩
  match env.createPolicyResult with
  | .error e => ("", some (errorsWrap e "failed to create role policy"), [.iamCreatePolicy input])
  | .ok arn => (arn, none, [.iamCreatePolicy input])

/-- attachRolePolicy: one IAM AttachRolePolicy call naming the role by the
fixed role name and the policy by the global GitLabRunnerRolePolicyARN. -/
def attachRolePolicy (env : Env) (g : Globals) (accountID : String) :
    Option String × List Event :=
  let input : AttachRolePolicyInput := ⟨g.GitLabRunnerRolePolicyARN, GitLabRunnerRoleName⟩
  match env.attachRolePolicyResult with
  | .error e => (some (errorsWrap e "failed to attach role policy"), [.iamAttachRolePolicy input])
  | .ok _ => (none, [.iamAttachRolePolicy input])

/-- Argument vector of the kubectl create serviceaccount subprocess. -/
def kubectlCreateArgs : List String :=
  ["create", "serviceaccount", GitLabRunnerServiceAccountName]

/-- Argument vector of the kubectl annotate subprocess for a given
computed service-account ARN string. -/
def kubectlAnnotateArgs (saArn : String) : List String :=
  ["annotate", "serviceaccount", GitLabRunnerServiceAccountName,
    GitLabRunnerServiceAccountAnnotationKey ++ "=" ++ saArn]

/-- createServiceAccount: runs kubectl create serviceaccount; on success
assigns the computed ARN to the global GitLabRunnerServiceAccountARN, then
runs kubectl annotate; returns the ARN, or the empty string on error, as
the Go code does. -/
def createServiceAccount (env : Env) (g : Globals) (accountID : String) :
    Globals × String × Option String × List Event :=
  match env.run "kubectl" kubectlCreateArgs with
  | some e =>
    (g, "", some (errorsWrap e "failed to create service account"),
      [.subprocess "kubectl" kubectlCreateArgs])
  | none =>
    let saVal : String :=
      goSprintf GitLabRunnerServiceAccountAnnotationValue [accountID, GitLabRunnerRoleName]
    let g1 : Globals := { g with GitLabRunnerServiceAccountARN := saVal }
    match env.run "kubectl" (kubectlAnnotateArgs g1.GitLabRunnerServiceAccountARN) with
    | some e =>
      (g1, "", some (errorsWrap e "failed to annotate service account"),
        [.subprocess "kubectl" kubectlCreateArgs,
          .subprocess "kubectl" (kubectlAnnotateArgs g1.GitLabRunnerServiceAccountARN)])
    | none =>
      (g1, g1.GitLabRunnerServiceAccountARN, none,
        [.subprocess "kubectl" kubectlCreateArgs,
          .subprocess "kubectl" (kubectlAnnotateArgs g1.GitLabRunnerServiceAccountARN)])

/-- Argument vector of the helm repo add subprocess. -/
def helmRepoAddArgs : List String := ["repo", "add", "gitlab", GitLabRunnerHelmChartRepo]

/-- Argument vector of the helm install subprocess. -/
def helmInstallArgs : List String :=
  ["install", "--name", GitLabRunnerHelmChartReleaseName,
    "--namespace", GitLabRunnerHelmChartNamespace,
    "--values", GitLabRunnerHelmChartValuesFile,
    GitLabRunnerHelmChartName, "--version", GitLabRunnerHelmChartVersion]

/-- deployHelmChart: runs helm repo add, then helm install. -/
def deployHelmChart (env : Env) : Option String × List Event :=
  match env.run "helm" helmRepoAddArgs with
  | some e =>
    (some (errorsWrap e "failed to add helm chart repo"), [.subprocess "helm" helmRepoAddArgs])
  | none =>
    match env.run "helm" helmInstallArgs with
    | some e =>
      (some (errorsWrap e "failed to install helm chart"),
        [.subprocess "helm" helmRepoAddArgs, .subprocess "helm" helmInstallArgs])
    | none =>
      (none, [.subprocess "helm" helmRepoAddArgs, .subprocess "helm" helmInstallArgs])

/-- main: the sequential pipeline with fail-fast aborts (logrus.Fatal
exits the process with code 1).  Returns the process exit code, the final
global-variable state and the trace of all outgoing calls.  Each Go
two-value assignment `global, err = f(...)` writes the returned value into
the global before the error check, as Go does. -/
def mainRun (env : Env) : Nat × Globals × List Event :=
  if env.sessionOk = false then (1, Globals.init, [])
  else
    let (accountID, err1, t1) := getAccountID env
    if err1.isSome then (1, Globals.init, t1)
    else
      let (roleArn, err2, t2) := createRole env accountID
      let g2 : Globals := { Globals.init with GitLabRunnerRoleARN := roleArn }
      if err2.isSome then (1, g2, t1 ++ t2)
      else
        let (policyArn, err3, t3) := createRolePolicy env accountID
        let g3 : Globals := { g2 with GitLabRunnerRolePolicyARN := policyArn }
        if err3.isSome then (1, g3, t1 ++ t2 ++ t3)
        else
          let (err4, t4) := attachRolePolicy env g3 accountID
          if err4.isSome then (1, g3, t1 ++ t2 ++ t3 ++ t4)
          else
            let (g5, saArn, err5, t5) := createServiceAccount env g3 accountID
            let g5 : Globals := { g5 with GitLabRunnerServiceAccountARN := saArn }
            if err5.isSome then (1, g5, t1 ++ t2 ++ t3 ++ t4 ++ t5)
            else
              let (err6, t6) := deployHelmChart env
              if err6.isSome then (1, g5, t1 ++ t2 ++ t3 ++ t4 ++ t5 ++ t6)
              else (0, g5, t1 ++ t2 ++ t3 ++ t4 ++ t5 ++ t6)

/-- The process exit code of a run. -/
def mainExitCode (env : Env) : Nat := (mainRun env).1

/-- The trace of outgoing calls of a run. -/
def mainTrace (env : Env) : List Event := (mainRun env).2.2

/-! ### A JSON subset grammar, to state the policy-document claims

The spec claims that the two policy documents parse as valid JSON with a
given shape.  The documents use only strings, arrays and objects, so a
parser for that JSON subset (with standard whitespace and no string
escapes) suffices to state and check the claims. -/

/-- JSON values restricted to strings, arrays and objects. -/
inductive Json where
  | str : String → Json
  | arr : List Json → Json
  | obj : List (String × Json) → Json
deriving Repr

/-- Skip JSON insignificant whitespace. -/
def skipWs : List Char → List Char
  | c :: cs => if c = ' ' ∨ c = '\t' ∨ c = '\n' ∨ c = '\r' then skipWs cs else c :: cs
  | [] => []

/-- Read the body of a JSON string up to the closing quote; escape
sequences are rejected (none occur in the documents under study). -/
def parseStrBody : List Char → Option (List Char × List Char)
  | [] => none
  | c :: cs =>
    if c = '"' then some ([], cs)
    else if c = '\\' then none
    else
      match parseStrBody cs with
      | some (s, rest) => some (c :: s, rest)
      | none => none

mutual

/-- Parse one JSON value (fuel-bounded recursion). -/
def parseValue : Nat → List Char → Option (Json × List Char)
  | 0, _ => none
  | fuel + 1, cs =>
    match skipWs cs with
    | [] => none
    | c :: cs1 =>
      if c = '"' then
        match parseStrBody cs1 with
        | some (s, rest) => some (Json.str (String.mk s), rest)
        | none => none
      else if c = Char.ofNat 123 then parseObjBody fuel cs1
      else if c = '[' then parseArrBody fuel cs1
      else none

/-- Parse one object member: a quoted key, a colon, a value. -/
def parseMember : Nat → List Char → Option ((String × Json) × List Char)
  | 0, _ => none
  | fuel + 1, cs =>
    match skipWs cs with
    | [] => none
    | c :: cs1 =>
      if c = '"' then
        match parseStrBody cs1 with
        | some (k, rest) =>
          match skipWs rest with
          | [] => none
          | c2 :: rest1 =>
            if c2 = ':' then
              match parseValue fuel rest1 with
              | some (v, rest2) => some ((String.mk k, v), rest2)
              | none => none
            else none
        | none => none
      else none

/-- Parse an object after its opening brace. -/
def parseObjBody : Nat → List Char → Option (Json × List Char)
  | 0, _ => none
  | fuel + 1, cs =>
    match skipWs cs with
    | [] => none
    | c :: cs1 =>
      if c = Char.ofNat 125 then some (Json.obj [], cs1)
      else
        match parseMember fuel (c :: cs1) with
        | some (kv, rest) => parseObjRest fuel [kv] rest
        | none => none

/-- Parse the remaining members of an object and its closing brace. -/
def parseObjRest : Nat → List (String × Json) → List Char → Option (Json × List Char)
  | 0, _, _ => none
  | fuel + 1, acc, cs =>
    match skipWs cs with
    | [] => none
    | c :: cs1 =>
      if c = Char.ofNat 125 then some (Json.obj acc.reverse, cs1)
      else if c = ',' then
        match parseMember fuel cs1 with
        | some (kv, rest) => parseObjRest fuel (kv :: acc) rest
        | none => none
      else none

/-- Parse an array after its opening bracket. -/
def parseArrBody : Nat → List Char → Option (Json × List Char)
  | 0, _ => none
  | fuel + 1, cs =>
    match skipWs cs with
    | [] => none
    | c :: cs1 =>
      if c = ']' then some (Json.arr [], cs1)
      else
        match parseValue fuel (c :: cs1) with
        | some (v, rest) => parseArrRest fuel [v] rest
        | none => none

/-- Parse the remaining elements of an array and its closing bracket. -/
def parseArrRest : Nat → List Json → List Char → Option (Json × List Char)
  | 0, _, _ => none
  | fuel + 1, acc, cs =>
    match skipWs cs with
    | [] => none
    | c :: cs1 =>
      if c = ']' then some (Json.arr acc.reverse, cs1)
      else if c = ',' then
        match parseValue fuel cs1 with
        | some (v, rest) => parseArrRest fuel (v :: acc) rest
        | none => none
      else none

end

/-- Parse a whole string as one JSON value followed only by whitespace. -/
def parseJson (s : String) : Option Json :=
  match parseValue (2 * s.data.length + 2) s.data with
  | some (j, rest) =>
    match skipWs rest with
    | [] => some j
    | _ :: _ => none
  | none => none

/-- The string held by a JSON value, when it is one. -/
def Json.asString : Json → Option String
  | .str s => some s
  | _ => none

/-- Association lookup among an object's members. -/
def lookupMember : List (String × Json) → String → Option Json
  | [], _ => none
  | (k, v) :: rest, key => if k = key then some v else lookupMember rest key

/-- The value of a field of a JSON object. -/
def Json.getField : Json → String → Option Json
  | .obj members, key => lookupMember members key
  | _, _ => none

/-- The i-th element of a JSON array. -/
def Json.getIndex : Json → Nat → Option Json
  | .arr xs, i => xs[i]?
  | _, _ => none

/-- The strings of a JSON array all of whose elements are strings. -/
def jsonStrings : List Json → Option (List String)
  | [] => some []
  | .str s :: rest =>
    match jsonStrings rest with
    | some ss => some (s :: ss)
    | none => none
  | _ :: _ => none

/-- A JSON array of strings, as a string list. -/
def Json.asStringArray : Json → Option (List String)
  | .arr xs => jsonStrings xs
  | _ => none

/-- Statement[0] of a parsed policy document. -/
def statementZero (doc : String) : Option Json :=
  ((parseJson doc).bind (fun j => j.getField "Statement")).bind (fun j => j.getIndex 0)

/-- The Action string list of Statement[0] of the permissions policy. -/
def permissionsPolicyActions : Option (List String) :=
  ((statementZero GitLabRunnerRolePolicyDocument).bind
    (fun j => j.getField "Action")).bind (fun j => j.asStringArray)

/-- The Resource string of Statement[0] of the permissions policy. -/
def permissionsPolicyResource : Option String :=
  ((statementZero GitLabRunnerRolePolicyDocument).bind
    (fun j => j.getField "Resource")).bind (fun j => j.asString)

/-- The Effect string of Statement[0] of the permissions policy. -/
def permissionsPolicyEffect : Option String :=
  ((statementZero GitLabRunnerRolePolicyDocument).bind
    (fun j => j.getField "Effect")).bind (fun j => j.asString)

/-- Statement[0].Principal.Service of the trust policy. -/
def trustPolicyPrincipalService : Option String :=
  (((statementZero GitLabRunnerRoleAssumeRolePolicyDocument).bind
    (fun j => j.getField "Principal")).bind (fun j => j.getField "Service")).bind
    (fun j => j.asString)

/-- Statement[0].Action of the trust policy. -/
def trustPolicyAction : Option String :=
  ((statementZero GitLabRunnerRoleAssumeRolePolicyDocument).bind
    (fun j => j.getField "Action")).bind (fun j => j.asString)

/-- Whether an action string names an IAM action (starts with iam and a
colon). -/
def isIamAction (s : String) : Bool :=
  match s.data with
  | 'i' :: 'a' :: 'm' :: ':' :: _ => true
  | _ => false

/-- The IAM-prefixed entries of the permissions policy's Action list. -/
def iamActionsOfPolicy : Option (List String) :=
  permissionsPolicyActions.map (fun l => l.filter isIamAction)

/-! ### Pipeline steps, for the fail-fast claims -/

/-- The pipeline step an outgoing call belongs to: 1 identity resolution,
2 role creation, 3 policy creation, 4 policy attachment, 5 service-account
binding (kubectl), 6 chart deployment (helm). -/
def stepOf : Event → Nat
  | .stsGetCallerIdentity => 1
  | .iamCreateRole _ => 2
  | .iamCreatePolicy _ => 3
  | .iamAttachRolePolicy _ => 4
  | .subprocess n _ => if n = "helm" then 6 else 5

/-- The annotation value createServiceAccount computes for an account. -/
def annotationValueFor (accountID : String) : String :=
  goSprintf GitLabRunnerServiceAccountAnnotationValue [accountID, GitLabRunnerRoleName]

/-- The first pipeline step at which a run over this environment fails
(none when every step succeeds), read off the environment: session opening
and identity resolution are step 1, then each later collaborator in
pipeline order. -/
def firstFailureStep (env : Env) : Option Nat :=
  if env.sessionOk = false then some 1
  else
    match env.getCallerIdentityResult with
    | .error _ => some 1
    | .ok accountID =>
      match env.createRoleResult with
      | .error _ => some 2
      | .ok _ =>
        match env.createPolicyResult with
        | .error _ => some 3
        | .ok _ =>
          match env.attachRolePolicyResult with
          | .error _ => some 4
          | .ok _ =>
            if (env.run "kubectl" kubectlCreateArgs).isSome then some 5
            else if (env.run "kubectl" (kubectlAnnotateArgs (annotationValueFor accountID))).isSome
              then some 5
            else if (env.run "helm" helmRepoAddArgs).isSome then some 6
            else if (env.run "helm" helmInstallArgs).isSome then some 6
            else none

/-! ### Concrete environments used to instantiate the theorems -/

/-- An environment in which every collaborator succeeds. -/
def envAllOk (acct rArn pArn : String) : Env :=
  ⟨true, .ok acct, .ok rArn, .ok pArn, .ok (), fun _ _ => none⟩

/-- An environment in which the IAM CreateRole call is denied. -/
def envRoleFails : Env :=
  ⟨true, .ok "123456789012", .error "AccessDenied", .ok "p", .ok (), fun _ _ => none⟩

/-- An environment in which the kubectl create serviceaccount subprocess
exits non-zero and everything else succeeds. -/
def envKubectlCreateFails : Env :=
  ⟨true, .ok "123456789012", .ok "r", .ok "p", .ok (),
    fun _ args => if args = kubectlCreateArgs then some "exit status 1" else none⟩

/-- An environment in which the kubectl annotate subprocess exits non-zero
and everything else succeeds (the annotate argument vector has four
entries, the create one has three). -/
def envAnnotateFails : Env :=
  ⟨true, .ok "123456789012", .ok "r", .ok "p", .ok (),
    fun _ args => if args.length = 4 then some "exit status 1" else none⟩

/-! ### Theorems -/

set_option maxRecDepth 20000

/-- The Sprintf of the annotation format with an account ID and the fixed
role name is the concatenation the spec describes. -/
theorem goSprintf_annotation_eq (a : String) :
    goSprintf GitLabRunnerServiceAccountAnnotationValue [a, GitLabRunnerRoleName] =
      "arn:aws:iam::" ++ a ++ ":role/GitLabRunnerRole" := by
  obtain ⟨la⟩ := a
  rfl

/-- Claim C1: if the pipeline first fails at step k, the run exits with a
non-zero code and every outgoing call in the trace belongs to a step at
most k; no operation of any step after k is ever invoked. -/
theorem step_failure_aborts_pipeline (env : Env) (k : Nat)
    (h : firstFailureStep env = some k) :
    mainExitCode env ≠ 0 ∧ ∀ e ∈ mainTrace env, stepOf e ≤ k := by
  rcases hs : env.sessionOk with _ | _
  · simp [firstFailureStep, hs] at h
    subst h
    simp [mainExitCode, mainTrace, mainRun, hs]
  · rcases hci : env.getCallerIdentityResult with ⟨eci⟩ | ⟨acct⟩
    · simp [firstFailureStep, hs, hci] at h
      subst h
      simp [mainExitCode, mainTrace, mainRun, getAccountID, hs, hci, stepOf]
    · rcases hcr : env.createRoleResult with ⟨ecr⟩ | ⟨rArn⟩
      · simp [firstFailureStep, hs, hci, hcr] at h
        subst h
        simp [mainExitCode, mainTrace, mainRun, getAccountID, createRole, hs, hci, hcr, stepOf]
      · rcases hcp : env.createPolicyResult with ⟨ecp⟩ | ⟨pArn⟩
        · simp [firstFailureStep, hs, hci, hcr, hcp] at h
          subst h
          simp [mainExitCode, mainTrace, mainRun, getAccountID, createRole, createRolePolicy,
            hs, hci, hcr, hcp, stepOf]
        · rcases har : env.attachRolePolicyResult with ⟨ear⟩ | ⟨⟩
          · simp [firstFailureStep, hs, hci, hcr, hcp, har] at h
            subst h
            simp [mainExitCode, mainTrace, mainRun, getAccountID, createRole, createRolePolicy,
              attachRolePolicy, hs, hci, hcr, hcp, har, stepOf]
          · rcases hk1 : env.run "kubectl" kubectlCreateArgs with _ | e1
            · rcases hk2 : env.run "kubectl" (kubectlAnnotateArgs
                (goSprintf GitLabRunnerServiceAccountAnnotationValue
                  [acct, GitLabRunnerRoleName])) with _ | e2
              · rcases hh1 : env.run "helm" helmRepoAddArgs with _ | e3
                · rcases hh2 : env.run "helm" helmInstallArgs with _ | e4
                  · simp [firstFailureStep, annotationValueFor, hs, hci, hcr, hcp, har,
                      hk1, hk2, hh1, hh2] at h
                  · simp [firstFailureStep, annotationValueFor, hs, hci, hcr, hcp, har,
                      hk1, hk2, hh1, hh2] at h
                    subst h
                    simp [mainExitCode, mainTrace, mainRun, getAccountID, createRole,
                      createRolePolicy, attachRolePolicy, createServiceAccount, deployHelmChart,
                      hs, hci, hcr, hcp, har, hk1, hk2, hh1, hh2, stepOf]
                · simp [firstFailureStep, annotationValueFor, hs, hci, hcr, hcp, har,
                    hk1, hk2, hh1] at h
                  subst h
                  simp [mainExitCode, mainTrace, mainRun, getAccountID, createRole,
                    createRolePolicy, attachRolePolicy, createServiceAccount, deployHelmChart,
                    hs, hci, hcr, hcp, har, hk1, hk2, hh1, stepOf]
              · simp [firstFailureStep, annotationValueFor, hs, hci, hcr, hcp, har,
                  hk1, hk2] at h
                subst h
                simp [mainExitCode, mainTrace, mainRun, getAccountID, createRole,
                  createRolePolicy, attachRolePolicy, createServiceAccount,
                  hs, hci, hcr, hcp, har, hk1, hk2, stepOf]
            · simp [firstFailureStep, annotationValueFor, hs, hci, hcr, hcp, har, hk1] at h
              subst h
              simp [mainExitCode, mainTrace, mainRun, getAccountID, createRole,
                createRolePolicy, attachRolePolicy, createServiceAccount,
                hs, hci, hcr, hcp, har, hk1, stepOf]

/-- Instantiation of the fail-fast theorem: when role creation is denied,
the run fails at step 2, exits non-zero, and the trace holds only
step-1 and step-2 calls. -/
theorem step_failure_aborts_pipeline_witness :
    firstFailureStep envRoleFails = some 2 ∧
    (mainExitCode envRoleFails ≠ 0 ∧ ∀ e ∈ mainTrace envRoleFails, stepOf e ≤ 2) :=
  ⟨rfl, step_failure_aborts_pipeline envRoleFails 2 rfl⟩

/-- Claim C2: whenever the kubectl create subprocess succeeds, the
annotation value the Service Account Binder computes for a non-empty
account ID a is exactly arn:aws:iam:: ++ a ++ :role/GitLabRunnerRole. -/
theorem serviceAccount_annotation_value_format (env : Env) (g : Globals) (a : String)
    (hne : a ≠ "")
    (hc : env.run "kubectl" kubectlCreateArgs = none) :
    (createServiceAccount env g a).1.GitLabRunnerServiceAccountARN =
      "arn:aws:iam::" ++ a ++ ":role/GitLabRunnerRole" := by
  rcases hB : env.run "kubectl" (kubectlAnnotateArgs
      (goSprintf GitLabRunnerServiceAccountAnnotationValue [a, GitLabRunnerRoleName])) with _ | e <;>
  · simp [createServiceAccount, hc, hB]
    exact goSprintf_annotation_eq a

/-- Instantiation of the annotation-value theorem at the account ID of the
spec's example, yielding arn:aws:iam::123456789012:role/GitLabRunnerRole. -/
theorem serviceAccount_annotation_value_format_witness :
    ("123456789012" : String) ≠ "" ∧
    (envAllOk "123456789012" "r" "p").run "kubectl" kubectlCreateArgs = none ∧
    (createServiceAccount (envAllOk "123456789012" "r" "p")
        Globals.init "123456789012").1.GitLabRunnerServiceAccountARN =
      "arn:aws:iam::123456789012:role/GitLabRunnerRole" :=
  ⟨by decide, rfl,
    serviceAccount_annotation_value_format (envAllOk "123456789012" "r" "p")
      Globals.init "123456789012" (by decide) rfl⟩

/-- Counterexample to claim C3 as stated: the permissions-policy document
names four IAM actions, not three. -/
theorem permissionsPolicy_iam_actions_count_cex :
    iamActionsOfPolicy =
      some ["iam:PassRole", "iam:GetRole", "iam:ListInstanceProfiles", "iam:ListRoles"] ∧
    iamActionsOfPolicy.map List.length ≠ some 3 := by
  constructor
  · rfl
  · decide

/-- Claim C3 (amended): the permissions-policy document parses as valid
JSON whose Statement[0] allows, on Resource *, exactly the wildcard
actions of the nine services ec2, elasticloadbalancing, autoscaling,
cloudwatch, s3, sns, sqs, rds, route53 plus exactly four named IAM
actions. -/
theorem permissionsPolicy_document_shape :
    (parseJson GitLabRunnerRolePolicyDocument).isSome = true ∧
    permissionsPolicyEffect = some "Allow" ∧
    permissionsPolicyResource = some "*" ∧
    permissionsPolicyActions = some ["ec2:*", "elasticloadbalancing:*", "autoscaling:*",
      "cloudwatch:*", "s3:*", "sns:*", "sqs:*", "rds:*", "route53:*",
      "iam:PassRole", "iam:GetRole", "iam:ListInstanceProfiles", "iam:ListRoles"] :=
  ⟨rfl, rfl, rfl, rfl⟩

/-- Claim C4: the trust-policy document parses as valid JSON with
Statement[0].Principal.Service equal to eks.amazonaws.com and
Statement[0].Action equal to sts:AssumeRole. -/
theorem trustPolicy_document_shape :
    (parseJson GitLabRunnerRoleAssumeRolePolicyDocument).isSome = true ∧
    trustPolicyPrincipalService = some "eks.amazonaws.com" ∧
    trustPolicyAction = some "sts:AssumeRole" :=
  ⟨rfl, rfl, rfl⟩

/-- Claim C5: when the session opens, the identity and IAM calls succeed
and all four subprocesses exit zero, the run makes exactly the eight
calls of the pipeline, in order (one role-create, one policy-create, one
attach, two kubectl runs, two helm runs), and exits with code 0. -/
theorem successful_run_call_sequence (env : Env) (acct rArn pArn : String)
    (h1 : env.sessionOk = true)
    (h2 : env.getCallerIdentityResult = Except.ok acct)
    (h3 : env.createRoleResult = Except.ok rArn)
    (h4 : env.createPolicyResult = Except.ok pArn)
    (h5 : env.attachRolePolicyResult = Except.ok ())
    (h6 : env.run "kubectl" kubectlCreateArgs = none)
    (h7 : env.run "kubectl" (kubectlAnnotateArgs
      (goSprintf GitLabRunnerServiceAccountAnnotationValue [acct, GitLabRunnerRoleName])) = none)
    (h8 : env.run "helm" helmRepoAddArgs = none)
    (h9 : env.run "helm" helmInstallArgs = none) :
    mainRun env = (0,
      ⟨rArn, pArn, goSprintf GitLabRunnerServiceAccountAnnotationValue [acct, GitLabRunnerRoleName]⟩,
      [Event.stsGetCallerIdentity,
       Event.iamCreateRole ⟨GitLabRunnerRoleAssumeRolePolicyDocument, GitLabRunnerRoleName⟩,
       Event.iamCreatePolicy ⟨"GitLab Runner role policy", GitLabRunnerRolePolicyDocument,
         GitLabRunnerRolePolicyName⟩,
       Event.iamAttachRolePolicy ⟨pArn, GitLabRunnerRoleName⟩,
       Event.subprocess "kubectl" kubectlCreateArgs,
       Event.subprocess "kubectl" (kubectlAnnotateArgs
         (goSprintf GitLabRunnerServiceAccountAnnotationValue [acct, GitLabRunnerRoleName])),
       Event.subprocess "helm" helmRepoAddArgs,
       Event.subprocess "helm" helmInstallArgs]) := by
  simp [mainRun, getAccountID, createRole, createRolePolicy, attachRolePolicy,
    createServiceAccount, deployHelmChart, h1, h2, h3, h4, h5, h6, h7, h8, h9]

/-- Instantiation of the successful-run theorem in an environment where
every collaborator succeeds. -/
theorem successful_run_call_sequence_witness :
    (envAllOk "123456789012" "r" "p").sessionOk = true ∧
    (envAllOk "123456789012" "r" "p").getCallerIdentityResult = Except.ok "123456789012" ∧
    (envAllOk "123456789012" "r" "p").createRoleResult = Except.ok "r" ∧
    (envAllOk "123456789012" "r" "p").createPolicyResult = Except.ok "p" ∧
    (envAllOk "123456789012" "r" "p").attachRolePolicyResult = Except.ok () ∧
    (envAllOk "123456789012" "r" "p").run "kubectl" kubectlCreateArgs = none ∧
    (envAllOk "123456789012" "r" "p").run "kubectl" (kubectlAnnotateArgs
      "arn:aws:iam::123456789012:role/GitLabRunnerRole") = none ∧
    (envAllOk "123456789012" "r" "p").run "helm" helmRepoAddArgs = none ∧
    (envAllOk "123456789012" "r" "p").run "helm" helmInstallArgs = none ∧
    mainRun (envAllOk "123456789012" "r" "p") = (0,
      ⟨"r", "p", "arn:aws:iam::123456789012:role/GitLabRunnerRole"⟩,
      [Event.stsGetCallerIdentity,
       Event.iamCreateRole ⟨GitLabRunnerRoleAssumeRolePolicyDocument, GitLabRunnerRoleName⟩,
       Event.iamCreatePolicy ⟨"GitLab Runner role policy", GitLabRunnerRolePolicyDocument,
         GitLabRunnerRolePolicyName⟩,
       Event.iamAttachRolePolicy ⟨"p", GitLabRunnerRoleName⟩,
       Event.subprocess "kubectl" kubectlCreateArgs,
       Event.subprocess "kubectl" (kubectlAnnotateArgs
         "arn:aws:iam::123456789012:role/GitLabRunnerRole"),
       Event.subprocess "helm" helmRepoAddArgs,
       Event.subprocess "helm" helmInstallArgs]) :=
  ⟨rfl, rfl, rfl, rfl, rfl, rfl, rfl, rfl, rfl,
    successful_run_call_sequence (envAllOk "123456789012" "r" "p") "123456789012" "r" "p"
      rfl rfl rfl rfl rfl rfl rfl rfl rfl⟩

/-- Claim C6: if the kubectl create serviceaccount subprocess exits
non-zero, the process exits non-zero and no helm subprocess (neither repo
add nor install) is ever invoked. -/
theorem kubectl_create_failure_blocks_helm (env : Env)
    (h : (env.run "kubectl" kubectlCreateArgs).isSome = true) :
    mainExitCode env ≠ 0 ∧ ∀ args, Event.subprocess "helm" args ∉ mainTrace env := by
  rw [Option.isSome_iff_exists] at h
  obtain ⟨e, he⟩ := h
  rcases hs : env.sessionOk with _ | _
  · simp [mainExitCode, mainTrace, mainRun, hs]
  · rcases hci : env.getCallerIdentityResult with ⟨eci⟩ | ⟨acct⟩
    · simp [mainExitCode, mainTrace, mainRun, getAccountID, hs, hci]
    · rcases hcr : env.createRoleResult with ⟨ecr⟩ | ⟨rArn⟩
      · simp [mainExitCode, mainTrace, mainRun, getAccountID, createRole, hs, hci, hcr]
      · rcases hcp : env.createPolicyResult with ⟨ecp⟩ | ⟨pArn⟩
        · simp [mainExitCode, mainTrace, mainRun, getAccountID, createRole, createRolePolicy,
            hs, hci, hcr, hcp]
        · rcases har : env.attachRolePolicyResult with ⟨ear⟩ | ⟨⟩
          · simp [mainExitCode, mainTrace, mainRun, getAccountID, createRole, createRolePolicy,
              attachRolePolicy, hs, hci, hcr, hcp, har]
          · simp [mainExitCode, mainTrace, mainRun, getAccountID, createRole, createRolePolicy,
              attachRolePolicy, createServiceAccount, hs, hci, hcr, hcp, har, he]

/-- Instantiation of the kubectl-failure theorem in an environment where
kubectl create serviceaccount exits non-zero. -/
theorem kubectl_create_failure_blocks_helm_witness :
    (envKubectlCreateFails.run "kubectl" kubectlCreateArgs).isSome = true ∧
    (mainExitCode envKubectlCreateFails ≠ 0 ∧
      ∀ args, Event.subprocess "helm" args ∉ mainTrace envKubectlCreateFails) :=
  ⟨rfl, kubectl_create_failure_blocks_helm envKubectlCreateFails rfl⟩

/-- Claim C7: every subprocess the program ever invokes has one of the
four argument shapes of the external-interface contract: kubectl create
serviceaccount with the fixed name, kubectl annotate serviceaccount with
the fixed name and a key=value pair, helm repo add with alias and URL, or
helm install with release, namespace, values file, chart and version. -/
theorem subprocess_argument_shapes (env : Env) (name : String) (args : List String)
    (h : Event.subprocess name args ∈ mainTrace env) :
    (name = "kubectl" ∧ args = kubectlCreateArgs) ∨
    (name = "kubectl" ∧ ∃ v, args = kubectlAnnotateArgs v) ∨
    (name = "helm" ∧ args = helmRepoAddArgs) ∨
    (name = "helm" ∧ args = helmInstallArgs) := by
  rcases hs : env.sessionOk with _ | _
  · simp [mainTrace, mainRun, hs] at h
  · rcases hci : env.getCallerIdentityResult with ⟨eci⟩ | ⟨acct⟩
    · simp [mainTrace, mainRun, getAccountID, hs, hci] at h
    · rcases hcr : env.createRoleResult with ⟨ecr⟩ | ⟨rArn⟩
      · simp [mainTrace, mainRun, getAccountID, createRole, hs, hci, hcr] at h
      · rcases hcp : env.createPolicyResult with ⟨ecp⟩ | ⟨pArn⟩
        · simp [mainTrace, mainRun, getAccountID, createRole, createRolePolicy,
            hs, hci, hcr, hcp] at h
        · rcases har : env.attachRolePolicyResult with ⟨ear⟩ | ⟨⟩
          · simp [mainTrace, mainRun, getAccountID, createRole, createRolePolicy,
              attachRolePolicy, hs, hci, hcr, hcp, har] at h
          · rcases hk1 : env.run "kubectl" kubectlCreateArgs with _ | e1
            · rcases hk2 : env.run "kubectl" (kubectlAnnotateArgs
                (goSprintf GitLabRunnerServiceAccountAnnotationValue
                  [acct, GitLabRunnerRoleName])) with _ | e2
              · rcases hh1 : env.run "helm" helmRepoAddArgs with _ | e3
                · rcases hh2 : env.run "helm" helmInstallArgs with _ | e4 <;>
                  · simp [mainTrace, mainRun, getAccountID, createRole, createRolePolicy,
                      attachRolePolicy, createServiceAccount, deployHelmChart,
                      hs, hci, hcr, hcp, har, hk1, hk2, hh1, hh2] at h
                    aesop
                · simp [mainTrace, mainRun, getAccountID, createRole, createRolePolicy,
                    attachRolePolicy, createServiceAccount, deployHelmChart,
                    hs, hci, hcr, hcp, har, hk1, hk2, hh1] at h
                  aesop
              · simp [mainTrace, mainRun, getAccountID, createRole, createRolePolicy,
                  attachRolePolicy, createServiceAccount,
                  hs, hci, hcr, hcp, har, hk1, hk2] at h
                aesop
            · simp [mainTrace, mainRun, getAccountID, createRole, createRolePolicy,
                attachRolePolicy, createServiceAccount,
                hs, hci, hcr, hcp, har, hk1] at h
              aesop

/-- Instantiation of the subprocess-shape theorem at the kubectl create
call of a fully successful run. -/
theorem subprocess_argument_shapes_witness :
    Event.subprocess "kubectl" kubectlCreateArgs ∈ mainTrace (envAllOk "123456789012" "r" "p") ∧
    ((("kubectl" : String) = "kubectl" ∧ kubectlCreateArgs = kubectlCreateArgs) ∨
     (("kubectl" : String) = "kubectl" ∧ ∃ v, kubectlCreateArgs = kubectlAnnotateArgs v) ∨
     (("kubectl" : String) = "helm" ∧ kubectlCreateArgs = helmRepoAddArgs) ∨
     (("kubectl" : String) = "helm" ∧ kubectlCreateArgs = helmInstallArgs)) :=
  ⟨by decide,
    subprocess_argument_shapes (envAllOk "123456789012" "r" "p") "kubectl" kubectlCreateArgs
      (by decide)⟩

/-- Counterexample to claim C8 as stated: two runs whose role-creation
calls return different Role ARNs make identical downstream calls (the
whole traces coincide, as do the exit codes), so the produced Role ARN is
not an input of the Policy Binder or the Service Account Binder. -/
theorem roleArn_not_consumed_cex :
    ("arn:aws:iam::123456789012:role/GitLabRunnerRole" : String) ≠ "someOtherRoleArn" ∧
    mainTrace (envAllOk "123456789012" "arn:aws:iam::123456789012:role/GitLabRunnerRole" "p") =
      mainTrace (envAllOk "123456789012" "someOtherRoleArn" "p") ∧
    mainExitCode (envAllOk "123456789012" "arn:aws:iam::123456789012:role/GitLabRunnerRole" "p") =
      mainExitCode (envAllOk "123456789012" "someOtherRoleArn" "p") := by
  refine ⟨by decide, rfl, rfl⟩

/-- Claim C8 (amended): the Role ARN returned by role creation is stored
in the global GitLabRunnerRoleARN but is consumed by no later step: the
Policy Binder names the role by its fixed name and the policy by the
Policy ARN, and the Service Account Binder recomputes the annotation
value from the account ID and the fixed role name, so a run's calls and
exit code are independent of the returned Role ARN. -/
theorem roleArn_not_consumed (env : Env) (a1 a2 : String) :
    mainExitCode { env with createRoleResult := Except.ok a1 } =
      mainExitCode { env with createRoleResult := Except.ok a2 } ∧
    mainTrace { env with createRoleResult := Except.ok a1 } =
      mainTrace { env with createRoleResult := Except.ok a2 } := by
  obtain ⟨sOk, ci, cr, cp, ar, run⟩ := env
  rcases sOk with _ | _
  · simp [mainExitCode, mainTrace, mainRun]
  · rcases ci with ⟨eci⟩ | ⟨acct⟩
    · simp [mainExitCode, mainTrace, mainRun, getAccountID]
    · rcases cp with ⟨ecp⟩ | ⟨pArn⟩
      · simp [mainExitCode, mainTrace, mainRun, getAccountID, createRole, createRolePolicy]
      · rcases ar with ⟨ear⟩ | ⟨⟩
        · simp [mainExitCode, mainTrace, mainRun, getAccountID, createRole, createRolePolicy,
            attachRolePolicy]
        · rcases hk1 : run "kubectl" kubectlCreateArgs with _ | e1
          · rcases hk2 : run "kubectl" (kubectlAnnotateArgs
              (goSprintf GitLabRunnerServiceAccountAnnotationValue
                [acct, GitLabRunnerRoleName])) with _ | e2
            · rcases hh1 : run "helm" helmRepoAddArgs with _ | e3
              · rcases hh2 : run "helm" helmInstallArgs with _ | e4 <;>
                  simp [mainExitCode, mainTrace, mainRun, getAccountID, createRole,
                    createRolePolicy, attachRolePolicy, createServiceAccount, deployHelmChart,
                    hk1, hk2, hh1, hh2]
              · simp [mainExitCode, mainTrace, mainRun, getAccountID, createRole,
                  createRolePolicy, attachRolePolicy, createServiceAccount, deployHelmChart,
                  hk1, hk2, hh1]
            · simp [mainExitCode, mainTrace, mainRun, getAccountID, createRole,
                createRolePolicy, attachRolePolicy, createServiceAccount, hk1, hk2]
          · simp [mainExitCode, mainTrace, mainRun, getAccountID, createRole,
              createRolePolicy, attachRolePolicy, createServiceAccount, hk1]

/-- Claim C9: createRole, createRolePolicy and attachRolePolicy ignore
their accountID argument: outputs, errors and issued cloud requests are
identical for any two account IDs. -/
theorem iam_calls_accountID_independent (env : Env) (a1 a2 : String) :
    createRole env a1 = createRole env a2 ∧
    createRolePolicy env a1 = createRolePolicy env a2 ∧
    ∀ g : Globals, attachRolePolicy env g a1 = attachRolePolicy env g a2 :=
  ⟨rfl, rfl, fun _ => rfl⟩

/-- Claim C10: when kubectl create succeeds but kubectl annotate fails,
createServiceAccount returns an error and the empty string, yet the
globals it hands back already carry the computed annotation value in
GitLabRunnerServiceAccountARN, assigned before the failing annotate
call. -/
theorem createServiceAccount_nonatomic (env : Env) (g : Globals) (a : String)
    (h1 : env.run "kubectl" kubectlCreateArgs = none)
    (h2 : (env.run "kubectl" (kubectlAnnotateArgs
      (goSprintf GitLabRunnerServiceAccountAnnotationValue
        [a, GitLabRunnerRoleName]))).isSome = true) :
    ((createServiceAccount env g a).2.2.1).isSome = true ∧
    (createServiceAccount env g a).2.1 = "" ∧
    (createServiceAccount env g a).1.GitLabRunnerServiceAccountARN =
      goSprintf GitLabRunnerServiceAccountAnnotationValue [a, GitLabRunnerRoleName] := by
  rcases hB : env.run "kubectl" (kubectlAnnotateArgs
      (goSprintf GitLabRunnerServiceAccountAnnotationValue [a, GitLabRunnerRoleName])) with _ | e
  · rw [hB] at h2
    simp at h2
  · simp [createServiceAccount, h1, hB]

/-- Instantiation of the non-atomicity theorem in an environment where
exactly the annotate subprocess fails. -/
theorem createServiceAccount_nonatomic_witness :
    envAnnotateFails.run "kubectl" kubectlCreateArgs = none ∧
    (envAnnotateFails.run "kubectl" (kubectlAnnotateArgs
      (goSprintf GitLabRunnerServiceAccountAnnotationValue
        ["123456789012", GitLabRunnerRoleName]))).isSome = true ∧
    (((createServiceAccount envAnnotateFails Globals.init "123456789012").2.2.1).isSome = true ∧
     (createServiceAccount envAnnotateFails Globals.init "123456789012").2.1 = "" ∧
     (createServiceAccount envAnnotateFails
         Globals.init "123456789012").1.GitLabRunnerServiceAccountARN =
       goSprintf GitLabRunnerServiceAccountAnnotationValue
         ["123456789012", GitLabRunnerRoleName]) :=
  ⟨rfl, rfl, createServiceAccount_nonatomic envAnnotateFails Globals.init "123456789012" rfl rfl⟩

end GitLabRunnerDeploy
